import Mathlib

/-!
# My-Gym-Tracker — verification of the Program Assignment & Progress Lifecycle Engine

Shallow embedding of the Express/PostgreSQL backend of the Gym Tracker
repository (backend `index.js`, `authAdmin.js`, `utils/logAudit.js`).

The relational store is modelled as lists of rows (structure `DB`), one list
per table appearing in the handlers' SQL.  Each HTTP handler becomes a pure
Lean function from its request parameters and the current `DB` to a pair of
a result (`Except ApiError α`, mirroring the handler's HTTP responses) and
the new `DB`.  `NOW()` is an explicit `now : Nat` parameter.

The backend issues each SQL statement through `pool.query` in autocommit
mode — there is no `BEGIN`/`COMMIT` anywhere in the source — so each
statement commits on its own.  To reason about mid-handler query failures
(a rejected `pool.query` promise caught by the handler's `try`/`catch`,
which only responds 500 and rolls nothing back), the multi-statement
handlers carry an explicit fault flag for a designated later statement;
the flag `false` is the fault-free run.

Modelled from the spec where the repository's schema DDL is not under the
sources: the `user_progress.status` column defaults to `pending`, the
`user_progress.updated_at` and `user_programs.completed_at` columns default
to NULL, and the store enforces no foreign-key constraints (§6 of the spec
lists only uniqueness constraints on the link tables).
-/

namespace GymTracker

/-- Progress status enum of `user_progress.status` (`pending` | `done`). -/
inductive Status where
  | pending
  | done
deriving DecidableEq, Repr

/-- A row of `users`: id, name, email, role (stored as the string the JS code
compares against), active flag, password hash. -/
structure User where
  id : Nat
  name : String
  email : String
  role : String
  active : Bool
  password : String
deriving DecidableEq, Repr

/-- A row of `programs`. -/
structure Program where
  id : Nat
  coach_id : Nat
  name : String
  description : String
deriving DecidableEq, Repr

/-- A row of `workouts`. -/
structure Workout where
  id : Nat
  program_id : Nat
  target_muscle : String
  description : String
  sets : Nat
  weight_equipment : String
deriving DecidableEq, Repr

/-- A row of `user_programs` (the Assignment link).  `completed_at` is the
nullable completion timestamp (`Option Nat`, `none` = NULL). -/
structure Assignment where
  user_id : Nat
  program_id : Nat
  completed_at : Option Nat
deriving DecidableEq, Repr

/-- A row of `user_progress` (the ProgressEntry). -/
structure ProgressEntry where
  user_id : Nat
  workout_id : Nat
  status : Status
  updated_at : Option Nat
deriving DecidableEq, Repr

/-- A row of `comments` (the Feedback entity). -/
structure Feedback where
  user_id : Nat
  program_id : Nat
  message : String
deriving DecidableEq, Repr

/-- A row of `audit_logs` (the AuditRecord entity), as inserted by
`utils/logAudit.js`. -/
structure AuditRecord where
  actor_id : Nat
  action : String
  target_id : Option Nat
  details : Option String
deriving DecidableEq, Repr

/-- The relational store: one list of rows per table the handlers touch. -/
structure DB where
  users : List User
  programs : List Program
  workouts : List Workout
  user_programs : List Assignment
  user_progress : List ProgressEntry
  comments : List Feedback
  audit_logs : List AuditRecord
deriving DecidableEq, Repr

/-- The authenticated caller (`req.user`, decoded from the JWT payload
`{ user_id, role }` by the auth middleware). -/
structure Caller where
  user_id : Nat
  role : String
deriving DecidableEq, Repr

/-- The error responses the handlers produce, keyed by HTTP status:
400 → `validation`, 403 → `forbidden`, 404 → `notFound`, 409 → `conflict`,
500 → `internal` (the `catch` branch). -/
inductive ApiError where
  | validation (msg : String)
  | forbidden
  | notFound (msg : String)
  | conflict (msg : String)
  | internal
deriving DecidableEq, Repr

/-- Rows returned by `SELECT id FROM user_programs WHERE user_id = $1 AND
program_id = $2` (the duplicate-assignment guard of POST /api/assign-program). -/
def assignmentRows (db : DB) (u p : Nat) : List Assignment :=
  db.user_programs.filter (fun a => a.user_id == u && a.program_id == p)

/-- The bulk ProgressEntry rows materialised by `INSERT INTO user_progress
(user_id, workout_id) SELECT $1, id FROM workouts WHERE program_id = $2`:
one pending entry per workout of the program (column defaults per spec). -/
def programEntries (db : DB) (u p : Nat) : List ProgressEntry :=
  (db.workouts.filter (fun w => w.program_id == p)).map
    (fun w => { user_id := u, workout_id := w.id, status := Status.pending,
                updated_at := none })

/-- POST /api/assign-program.  `failProgress` injects a rejection of the bulk
`user_progress` insert (the statement after the `user_programs` insert); the
handler's `catch` then responds 500 without undoing the committed insert. -/
def assignProgram (u p : Nat) (failProgress : Bool) (db : DB) :
    Except ApiError Assignment × DB :=
  if u = 0 ∨ p = 0 then
    (Except.error (ApiError.validation "Missing or invalid user/program"), db)
  else if (assignmentRows db u p).length > 0 then
    (Except.error (ApiError.conflict "Program already assigned"), db)
  else
    let a : Assignment := { user_id := u, program_id := p, completed_at := none }
    let db1 : DB := { db with user_programs := db.user_programs ++ [a] }
    if failProgress then
      (Except.error ApiError.internal, db1)
    else
      let db2 : DB :=
        { db1 with user_progress := db1.user_progress ++ programEntries db u p }
      (Except.ok a, db2)

/-- Rows matched by `UPDATE user_progress SET status = done, updated_at =
NOW() WHERE user_id = $1 AND workout_id = $2 RETURNING *` — its `rowCount`
is the length of this list. -/
def progressRows (db : DB) (u w : Nat) : List ProgressEntry :=
  db.user_progress.filter (fun e => e.user_id == u && e.workout_id == w)

/-- Effect of that UPDATE on the store: every matching `user_progress` row
becomes `done` with `updated_at = NOW()`. -/
def markProgressDone (db : DB) (now u w : Nat) : DB :=
  let rows := db.user_progress.map fun e =>
    if e.user_id == u && e.workout_id == w then
      { e with status := Status.done, updated_at := some now } else e
  { db with user_progress := rows }

/-- The pending-work probe of PATCH /api/mark-workout: `SELECT 1 FROM
user_progress up JOIN workouts w ON up.workout_id = w.id WHERE up.user_id =
$1 AND w.program_id = $2 AND up.status <> done LIMIT 1` — true iff a row
exists.  It ranges only over workouts that have a `user_progress` row for
the user. -/
def hasPendingFor (db : DB) (u pid : Nat) : Bool :=
  db.user_progress.any (fun e =>
    e.user_id == u && e.status != Status.done &&
      db.workouts.any (fun wk => wk.id == e.workout_id && wk.program_id == pid))

/-- Effect of `UPDATE user_programs SET completed_at = NOW() WHERE user_id =
$1 AND program_id = $2` — note the source has no `completed_at IS NULL`
guard, so an already-set stamp is overwritten. -/
def stampCompletion (db : DB) (now u pid : Nat) : DB :=
  let rows := db.user_programs.map fun a =>
    if a.user_id == u && a.program_id == pid then
      { a with completed_at := some now } else a
  { db with user_programs := rows }

/-- PATCH /api/mark-workout.  `failPending` injects a rejection of the
pending-work SELECT (issued after the committed status UPDATE); the
handler's `catch` then responds 500 with the UPDATE already applied. -/
def markWorkoutDone (now u w : Nat) (failPending : Bool) (db : DB) :
    Except ApiError Unit × DB :=
  if u = 0 ∨ w = 0 then
    (Except.error (ApiError.validation "Missing required fields"), db)
  else if (progressRows db u w).length = 0 then
    (Except.error (ApiError.notFound "Progress entry not found"), db)
  else
    let db1 := markProgressDone db now u w
    match db.workouts.find? (fun wk => wk.id == w) with
    | none => (Except.error (ApiError.notFound "Workout not found"), db1)
    | some wk =>
      if failPending then
        (Except.error ApiError.internal, db1)
      else if hasPendingFor db1 u wk.program_id then
        (Except.ok (), db1)
      else
        (Except.ok (), stampCompletion db1 now u wk.program_id)

/-- Rows of the duplicate-feedback probe `SELECT 1 FROM comments WHERE
user_id = $1 AND program_id = $2`. -/
def feedbackRows (db : DB) (u p : Nat) : List Feedback :=
  db.comments.filter (fun c => c.user_id == u && c.program_id == p)

/-- First row of `SELECT completed_at FROM user_programs WHERE user_id = $1
AND program_id = $2` (`rows[0]` of the Feedback Gate's assignment lookup). -/
def assignmentFor (db : DB) (u p : Nat) : Option Assignment :=
  db.user_programs.find? (fun a => a.user_id == u && a.program_id == p)

/-- POST /api/comments: the Feedback Gate. -/
def submitFeedback (u p : Nat) (message : String) (db : DB) :
    Except ApiError Feedback × DB :=
  if u = 0 ∨ p = 0 ∨ message = "" then
    (Except.error (ApiError.validation "Missing required fields"), db)
  else
    match assignmentFor db u p with
    | none =>
      (Except.error (ApiError.validation "Program not assigned to this user"), db)
    | some a =>
      if a.completed_at = none then
        (Except.error (ApiError.validation "Program not completed yet"), db)
      else if (feedbackRows db u p).length > 0 then
        (Except.error (ApiError.validation "Feedback already submitted"), db)
      else
        let c : Feedback := { user_id := u, program_id := p, message := message }
        (Except.ok c, { db with comments := db.comments ++ [c] })

/-- `authAdmin.js`: rejects with 403 "Access restricted" unless
`req.user.role` is the string `super_admin`. -/
def authAdmin (caller : Caller) : Bool :=
  caller.role == "super_admin"

/-- The closed role enum of PATCH /api/users/:id/role. -/
def allowedRoles : List String :=
  ["client", "coach", "super_admin"]

/-- PATCH /api/users/:id/role (behind `authMiddleware` and `authAdmin`).
The UPDATE touches whatever rows match the id and the handler responds
"Role updated" regardless of `rowCount`; no `audit_logs` insert occurs. -/
def updateRole (caller : Caller) (userId : Nat) (role : Option String)
    (db : DB) : Except ApiError Unit × DB :=
  if ¬ authAdmin caller then
    (Except.error ApiError.forbidden, db)
  else
    match role with
    | none => (Except.error (ApiError.validation "Role is required"), db)
    | some r =>
      if ¬ allowedRoles.contains r then
        (Except.error (ApiError.validation "Invalid role"), db)
      else
        let rows := db.users.map fun usr =>
          if usr.id == userId then { usr with role := r } else usr
        (Except.ok (), { db with users := rows })

/-- PATCH /api/users/:id/password (behind `authAdmin`).  `hash` is the
bcrypt collaborator, left uninterpreted; no `audit_logs` insert occurs. -/
def resetPassword (hash : String → String) (caller : Caller) (userId : Nat)
    (new_password : String) (db : DB) : Except ApiError Unit × DB :=
  if ¬ authAdmin caller then
    (Except.error ApiError.forbidden, db)
  else if new_password.length < 6 then
    (Except.error (ApiError.validation "Password must be at least 6 characters"), db)
  else
    let rows := db.users.map fun usr =>
      if usr.id == userId then { usr with password := hash new_password } else usr
    (Except.ok (), { db with users := rows })

/-- PATCH /api/toggle-user (behind `authAdmin`).  This handler does check
`rowCount` of the RETURNING update; no `audit_logs` insert occurs. -/
def toggleUser (caller : Caller) (user_id : Nat) (active : Option Bool)
    (db : DB) : Except ApiError Unit × DB :=
  if ¬ authAdmin caller then
    (Except.error ApiError.forbidden, db)
  else if user_id = 0 ∨ active = none then
    (Except.error (ApiError.validation "Missing user_id or active flag"), db)
  else if (db.users.filter (fun usr => usr.id == user_id)).length = 0 then
    (Except.error (ApiError.notFound "User not found"), db)
  else
    let rows := db.users.map fun usr =>
      if usr.id == user_id then { usr with active := active.getD usr.active }
      else usr
    (Except.ok (), { db with users := rows })

/-- The raw `INSERT INTO audit_logs (actor_id, action, target_id, details)`
issued by `utils/logAudit.js`; `fails` injects a rejected promise. -/
def auditInsert (actorId : Nat) (action : String) (targetId : Option Nat)
    (details : Option String) (fails : Bool) (db : DB) : Except ApiError DB :=
  if fails then Except.error ApiError.internal
  else Except.ok { db with audit_logs := db.audit_logs ++
    [{ actor_id := actorId, action := action, target_id := targetId,
       details := details }] }

/-- `utils/logAudit.js`: wraps the insert in `try`/`catch`; on failure it
logs to the console and returns normally with the store untouched. -/
def logAudit (actorId : Nat) (action : String) (targetId : Option Nat)
    (details : Option String) (fails : Bool) (db : DB) : Except ApiError DB :=
  match auditInsert actorId action targetId details fails db with
  | Except.ok db1 => Except.ok db1
  | Except.error _ => Except.ok db

/-! ## Concrete fixtures used by the closed theorems -/

/-- A workout of program 1, used by several fixtures. -/
def sampleWorkout : Workout :=
  { id := 1, program_id := 1, target_muscle := "chest", description := "d",
    sets := 3, weight_equipment := "bar" }

/-- A second workout of program 1. -/
def sampleWorkout2 : Workout :=
  { id := 2, program_id := 1, target_muscle := "back", description := "d",
    sets := 3, weight_equipment := "band" }

/-- Fixture for C1: user 7 already completed program 1 (stamp `some 5`). -/
def dbC1 : DB :=
  { users := [], programs := [], workouts := [sampleWorkout],
    user_programs := [{ user_id := 7, program_id := 1, completed_at := some 5 }],
    user_progress := [{ user_id := 7, workout_id := 1, status := Status.done,
                        updated_at := some 5 }],
    comments := [], audit_logs := [] }

/-- Fixture for C2: program 1 with one workout, nothing assigned yet. -/
def dbC2 : DB :=
  { users := [], programs := [{ id := 1, coach_id := 9, name := "P", description := "d" }],
    workouts := [sampleWorkout], user_programs := [], user_progress := [],
    comments := [], audit_logs := [] }

/-- Fixture for C2 (mark-workout half): user 7 has a pending entry for workout 1. -/
def dbC2m : DB :=
  { dbC2 with
    user_programs := [{ user_id := 7, program_id := 1, completed_at := none }],
    user_progress := [{ user_id := 7, workout_id := 1, status := Status.pending,
                        updated_at := none }] }

/-- Fixture for C3: one client row that a super_admin will mutate. -/
def dbC3 : DB :=
  { users := [{ id := 2, name := "Bob", email := "b@x", role := "client",
                active := true, password := "pw" }],
    programs := [], workouts := [], user_programs := [], user_progress := [],
    comments := [], audit_logs := [] }

/-- The super_admin caller of the C3 scenario. -/
def callerC3 : Caller := { user_id := 1, role := "super_admin" }

/-- Fixture for C4: a completely empty store — no User and no Program resolves. -/
def dbC4 : DB :=
  { users := [], programs := [], workouts := [], user_programs := [],
    user_progress := [], comments := [], audit_logs := [] }

/-- Fixture for C5/C6: program 1 with two workouts, nothing assigned yet. -/
def dbC5 : DB :=
  { users := [{ id := 7, name := "Ann", email := "a@x", role := "client",
                active := true, password := "pw" }],
    programs := [{ id := 1, coach_id := 9, name := "P", description := "d" }],
    workouts := [sampleWorkout, sampleWorkout2],
    user_programs := [], user_progress := [], comments := [], audit_logs := [] }

/-- The store after the successful C5/C6 assignment call. -/
def dbC5out : DB := (assignProgram 7 1 false dbC5).2

/-- Fixture for C7: user 7's assignment to program 1 is completed, no feedback yet. -/
def dbC7 : DB :=
  { users := [], programs := [], workouts := [],
    user_programs := [{ user_id := 7, program_id := 1, completed_at := some 3 }],
    user_progress := [], comments := [], audit_logs := [] }

/-- A non-super_admin caller for C8. -/
def callerC8 : Caller := { user_id := 2, role := "coach" }

/-- Fixture for C10: program 1 has two workouts but user 7 has a ProgressEntry
only for workout 1 — workout 2 was never materialised for this user. -/
def dbC10 : DB :=
  { users := [], programs := [],
    workouts := [sampleWorkout, sampleWorkout2],
    user_programs := [{ user_id := 7, program_id := 1, completed_at := none }],
    user_progress := [{ user_id := 7, workout_id := 1, status := Status.pending,
                        updated_at := none }],
    comments := [], audit_logs := [] }

/-! ## Unfolding equations for the handlers -/

/-- `assignProgram` unfolded to its decision tree. -/
theorem assignProgram_eq (u p : Nat) (f : Bool) (db : DB) :
    assignProgram u p f db =
      if u = 0 ∨ p = 0 then
        (Except.error (ApiError.validation "Missing or invalid user/program"), db)
      else if (assignmentRows db u p).length > 0 then
        (Except.error (ApiError.conflict "Program already assigned"), db)
      else if f then
        (Except.error ApiError.internal,
         { db with user_programs := db.user_programs ++
             [{ user_id := u, program_id := p, completed_at := none }] })
      else
        (Except.ok { user_id := u, program_id := p, completed_at := none },
         { db with
           user_programs := db.user_programs ++
             [{ user_id := u, program_id := p, completed_at := none }],
           user_progress := db.user_progress ++ programEntries db u p }) := rfl

/-- `markWorkoutDone` unfolded to its decision tree. -/
theorem markWorkoutDone_eq (now u w : Nat) (f : Bool) (db : DB) :
    markWorkoutDone now u w f db =
      if u = 0 ∨ w = 0 then
        (Except.error (ApiError.validation "Missing required fields"), db)
      else if (progressRows db u w).length = 0 then
        (Except.error (ApiError.notFound "Progress entry not found"), db)
      else
        match db.workouts.find? (fun wk => wk.id == w) with
        | none => (Except.error (ApiError.notFound "Workout not found"),
                   markProgressDone db now u w)
        | some wk =>
          if f then
            (Except.error ApiError.internal, markProgressDone db now u w)
          else if hasPendingFor (markProgressDone db now u w) u wk.program_id then
            (Except.ok (), markProgressDone db now u w)
          else
            (Except.ok (),
             stampCompletion (markProgressDone db now u w) now u wk.program_id) := rfl

/-- Anatomy of a successful `assignProgram` call: the guards passed, the
returned row is the fresh Assignment with NULL stamp, and the new store holds
exactly the appended Assignment and its bulk ProgressEntry rows. -/
theorem assignProgram_ok {u p : Nat} {db db1 : DB} {a : Assignment}
    (h : assignProgram u p false db = (Except.ok a, db1)) :
    u ≠ 0 ∧ p ≠ 0 ∧ (assignmentRows db u p).length = 0 ∧
    a = { user_id := u, program_id := p, completed_at := none } ∧
    db1 = { db with
      user_programs := db.user_programs ++
        [{ user_id := u, program_id := p, completed_at := none }],
      user_progress := db.user_progress ++ programEntries db u p } := by
  rw [assignProgram_eq] at h
  by_cases h1 : u = 0 ∨ p = 0
  · rw [if_pos h1] at h
    simp at h
  · rw [if_neg h1] at h
    push_neg at h1
    by_cases h2 : (assignmentRows db u p).length > 0
    · rw [if_pos h2] at h
      simp at h
    · rw [if_neg h2, if_neg (by simp)] at h
      simp only [Prod.mk.injEq, Except.ok.injEq] at h
      exact ⟨h1.1, h1.2, by omega, h.1.symm, h.2.symm⟩

/-! ## Claim theorems -/

/-- Claim C4, counterexample: on an empty store (user 1 and program 1 resolve
to nothing) `assignProgram 1 1` does not fail with NotFound — it succeeds and
creates an Assignment row. -/
theorem C4_counterexample :
    (assignProgram 1 1 false dbC4).1 =
      Except.ok { user_id := 1, program_id := 1, completed_at := none } ∧
    (assignProgram 1 1 false dbC4).2.user_programs =
      [{ user_id := 1, program_id := 1, completed_at := none }] ∧
    dbC4.users = [] ∧ dbC4.programs = [] :=
  ⟨rfl, rfl, rfl, rfl⟩

/-- Claim C4 as amended: POST /api/assign-program performs no existence check
on `user_id` or `program_id` and has no NotFound outcome; whenever both ids
are non-zero and no Assignment for the pair exists, the call succeeds and
inserts the Assignment and bulk ProgressEntry rows even though no User row
matches `user_id` and no Program row matches `program_id`. -/
theorem C4_amended_no_existence_check (u p : Nat) (db : DB)
    (hu : u ≠ 0) (hp : p ≠ 0)
    (hnodup : (assignmentRows db u p).length = 0)
    (husers : ∀ usr ∈ db.users, usr.id ≠ u)
    (hprogs : ∀ pr ∈ db.programs, pr.id ≠ p) :
    assignProgram u p false db =
      (Except.ok { user_id := u, program_id := p, completed_at := none },
       { db with
         user_programs := db.user_programs ++
           [{ user_id := u, program_id := p, completed_at := none }],
         user_progress := db.user_progress ++ programEntries db u p }) := by
  rw [assignProgram_eq, if_neg (by tauto), if_neg (by omega), if_neg (by simp)]

/-- Witness for C4's amended theorem at the empty store. -/
theorem C4_amended_witness :
    assignProgram 1 1 false dbC4 =
      (Except.ok { user_id := 1, program_id := 1, completed_at := none },
       { dbC4 with
         user_programs := dbC4.user_programs ++
           [{ user_id := 1, program_id := 1, completed_at := none }],
         user_progress := dbC4.user_progress ++ programEntries dbC4 1 1 }) :=
  C4_amended_no_existence_check 1 1 dbC4 (by decide) (by decide) (by decide)
    (by intro usr husr; simp [dbC4] at husr)
    (by intro pr hpr; simp [dbC4] at hpr)

/-- Claim C5: after a successful `assignProgram u p`, a second call for the
same pair fails with Conflict and leaves the store — Assignment and
ProgressEntry rows included — exactly as it was, and exactly one Assignment
row for the pair exists. -/
theorem C5_second_assignment_conflicts (u p : Nat) (db db1 : DB)
    (a : Assignment) (f : Bool)
    (h1 : assignProgram u p false db = (Except.ok a, db1)) :
    assignProgram u p f db1 =
      (Except.error (ApiError.conflict "Program already assigned"), db1) ∧
    assignmentRows db1 u p =
      [{ user_id := u, program_id := p, completed_at := none }] := by
  obtain ⟨hu, hp, hdup, ha, hdb⟩ := assignProgram_ok h1
  subst ha hdb
  have hfil : db.user_programs.filter
      (fun x => x.user_id == u && x.program_id == p) = [] :=
    List.length_eq_zero.mp hdup
  have hrows : assignmentRows
      { db with
        user_programs := db.user_programs ++
          [{ user_id := u, program_id := p, completed_at := none }],
        user_progress := db.user_progress ++ programEntries db u p } u p =
      [{ user_id := u, program_id := p, completed_at := none }] := by
    simp [assignmentRows, List.filter_append, hfil]
  refine ⟨?_, hrows⟩
  rw [assignProgram_eq, if_neg (by tauto), if_pos (by rw [hrows]; simp)]

/-- Witness for C5 on a two-workout program. -/
theorem C5_witness :
    assignProgram 7 1 false dbC5 =
      (Except.ok { user_id := 7, program_id := 1, completed_at := none },
       dbC5out) ∧
    (assignProgram 7 1 false dbC5out =
      (Except.error (ApiError.conflict "Program already assigned"), dbC5out) ∧
     assignmentRows dbC5out 7 1 =
      [{ user_id := 7, program_id := 1, completed_at := none }]) :=
  ⟨rfl, C5_second_assignment_conflicts 7 1 dbC5 dbC5out
    { user_id := 7, program_id := 1, completed_at := none } false rfl⟩

/-- Claim C6: a successful `assignProgram u p` returns the Assignment with a
NULL completion stamp and appends exactly one pending ProgressEntry per
workout of program p (none if p has zero workouts, and the stamp stays NULL). -/
theorem C6_assignment_materializes_pending_entries (u p : Nat) (db db1 : DB)
    (a : Assignment)
    (h : assignProgram u p false db = (Except.ok a, db1)) :
    a.completed_at = none ∧
    db1.user_programs = db.user_programs ++ [a] ∧
    db1.user_progress = db.user_progress ++ programEntries db u p ∧
    (programEntries db u p).length =
      (db.workouts.filter (fun wk => wk.program_id == p)).length ∧
    (∀ e ∈ programEntries db u p,
      e.user_id = u ∧ e.status = Status.pending ∧
      ∃ wk ∈ db.workouts, wk.program_id = p ∧ e.workout_id = wk.id) ∧
    (db.workouts.filter (fun wk => wk.program_id == p) = [] →
      db1.user_progress = db.user_progress) := by
  obtain ⟨hu, hp, hdup, ha, hdb⟩ := assignProgram_ok h
  subst ha hdb
  refine ⟨rfl, rfl, rfl, by simp [programEntries], ?_, ?_⟩
  · intro e he
    simp only [programEntries, List.mem_map, List.mem_filter] at he
    obtain ⟨wk, ⟨hmem, hpid⟩, rfl⟩ := he
    exact ⟨rfl, rfl, wk, hmem, by simpa using hpid, rfl⟩
  · intro h0
    simp [programEntries, h0]

/-- Witness for C6 on a two-workout program. -/
theorem C6_witness :
    assignProgram 7 1 false dbC5 =
      (Except.ok { user_id := 7, program_id := 1, completed_at := none },
       dbC5out) ∧
    ({ user_id := 7, program_id := 1, completed_at := none } :
      Assignment).completed_at = none :=
  ⟨rfl,
   (C6_assignment_materializes_pending_entries 7 1 dbC5 dbC5out
     { user_id := 7, program_id := 1, completed_at := none } rfl).1⟩

/-- A completion pass of PATCH /api/mark-workout: when the status UPDATE
matched a row, the workout resolves, and no pending entry remains after the
update, the handler responds ok and stamps the assignment with NOW(). -/
theorem markWorkoutDone_stamps (now u w : Nat) (db : DB) (wk : Workout)
    (hu : u ≠ 0) (hw : w ≠ 0)
    (hrows : (progressRows db u w).length ≠ 0)
    (hwk : db.workouts.find? (fun k => k.id == w) = some wk)
    (hnopending :
      hasPendingFor (markProgressDone db now u w) u wk.program_id = false) :
    markWorkoutDone now u w false db =
      (Except.ok (),
       stampCompletion (markProgressDone db now u w) now u wk.program_id) := by
  rw [markWorkoutDone_eq, if_neg (by tauto), if_neg hrows, hwk]
  simp [hnopending]

/-- Every Assignment row for the stamped (user, program) pair carries the new
stamp after `stampCompletion`. -/
theorem stampCompletion_all (now u pid : Nat) (db : DB) :
    ∀ a ∈ (stampCompletion db now u pid).user_programs,
      a.user_id = u → a.program_id = pid → a.completed_at = some now := by
  intro a ha hau hap
  simp only [stampCompletion, List.mem_map] at ha
  obtain ⟨b, hb, rfl⟩ := ha
  by_cases hc : (b.user_id == u && b.program_id == pid) = true
  · rw [if_pos hc]
  · rw [if_neg hc] at hau hap ⊢
    exact absurd (by simp [hau, hap]) hc

/-- `stampCompletion` rewrites a matching pre-existing row to the new stamp. -/
theorem stampCompletion_mem {db : DB} {a : Assignment} (now u pid : Nat)
    (ha : a ∈ db.user_programs) (hau : a.user_id = u)
    (hap : a.program_id = pid) :
    { a with completed_at := some now } ∈
      (stampCompletion db now u pid).user_programs := by
  simp only [stampCompletion]
  refine List.mem_map.mpr ⟨a, ha, ?_⟩
  rw [if_pos (by simp [hau, hap])]

/-- Claim C1, counterexample: user 7's assignment to program 1 is already
stamped `some 5` and its single workout is done; re-marking that workout at
time 10 responds ok but rewrites the completion stamp to `some 10`. -/
theorem C1_counterexample :
    (markWorkoutDone 10 7 1 false dbC1).1 = Except.ok () ∧
    dbC1.user_programs =
      [{ user_id := 7, program_id := 1, completed_at := some 5 }] ∧
    (markWorkoutDone 10 7 1 false dbC1).2.user_programs =
      [{ user_id := 7, program_id := 1, completed_at := some 10 }] :=
  ⟨rfl, rfl, rfl⟩

/-- Claim C1 as amended: re-marking a done workout of an already-completed
assignment does not error, but the completion stamp is not write-once — the
`UPDATE user_programs SET completed_at = NOW()` has no `IS NULL` guard, so
each such call overwrites the stamp with the current time. -/
theorem C1_amended_restamps (now t u w : Nat) (db : DB) (wk : Workout)
    (a0 : Assignment)
    (hu : u ≠ 0) (hw : w ≠ 0)
    (hrows : (progressRows db u w).length ≠ 0)
    (hwk : db.workouts.find? (fun k => k.id == w) = some wk)
    (hnopending :
      hasPendingFor (markProgressDone db now u w) u wk.program_id = false)
    (ha0 : a0 ∈ db.user_programs) (hau : a0.user_id = u)
    (hap : a0.program_id = wk.program_id)
    (hprev : a0.completed_at = some t) :
    (markWorkoutDone now u w false db).1 = Except.ok () ∧
    { a0 with completed_at := some now } ∈
      (markWorkoutDone now u w false db).2.user_programs := by
  have h1 := markWorkoutDone_stamps now u w db wk hu hw hrows hwk hnopending
  rw [h1]
  exact ⟨rfl, stampCompletion_mem now u wk.program_id
    (by simpa [markProgressDone] using ha0) hau hap⟩

/-- Witness for C1's amended theorem: the stamp moves from 5 to 10. -/
theorem C1_amended_witness :
    ((progressRows dbC1 7 1).length ≠ 0 ∧
     ({ user_id := 7, program_id := 1, completed_at := some 5 } :
       Assignment) ∈ dbC1.user_programs) ∧
    ((markWorkoutDone 10 7 1 false dbC1).1 = Except.ok () ∧
     ({ user_id := 7, program_id := 1, completed_at := some 10 } :
       Assignment) ∈ (markWorkoutDone 10 7 1 false dbC1).2.user_programs) :=
  ⟨⟨by decide, by decide⟩,
   C1_amended_restamps 10 5 7 1 dbC1 sampleWorkout
     { user_id := 7, program_id := 1, completed_at := some 5 }
     (by decide) (by decide) (by decide) (by decide) (by decide)
     (by decide) rfl rfl rfl⟩

/-- Claim C2, counterexample: with the bulk ProgressEntry insert rejected,
POST /api/assign-program reports Internal yet the already-committed
Assignment row persists — there is no transaction and no rollback. -/
theorem C2_counterexample :
    (assignProgram 7 1 true dbC2).1 = Except.error ApiError.internal ∧
    (assignProgram 7 1 true dbC2).2.user_programs =
      [{ user_id := 7, program_id := 1, completed_at := none }] ∧
    dbC2.user_programs = [] :=
  ⟨rfl, rfl, rfl⟩

/-- Claim C2 as amended: the multi-row mutations are not atomic.  A failing
bulk ProgressEntry insert leaves the committed Assignment row in the store
while the handler reports Internal, and a failure after `markWorkoutDone`'s
status UPDATE leaves that committed UPDATE observable while the handler
reports an error. -/
theorem C2_amended_no_rollback :
    (∀ u p db, u ≠ 0 → p ≠ 0 → (assignmentRows db u p).length = 0 →
      assignProgram u p true db =
        (Except.error ApiError.internal,
         { db with user_programs := db.user_programs ++
             [{ user_id := u, program_id := p, completed_at := none }] })) ∧
    (∀ now u w db, u ≠ 0 → w ≠ 0 → (progressRows db u w).length ≠ 0 →
      (markWorkoutDone now u w true db).2 = markProgressDone db now u w ∧
      ∃ e, (markWorkoutDone now u w true db).1 = Except.error e) := by
  constructor
  · intro u p db hu hp hdup
    rw [assignProgram_eq, if_neg (by tauto), if_neg (by omega), if_pos rfl]
  · intro now u w db hu hw hrows
    rw [markWorkoutDone_eq, if_neg (by tauto), if_neg hrows]
    cases hfind : db.workouts.find? (fun wk => wk.id == w) with
    | none => exact ⟨rfl, ApiError.notFound "Workout not found", rfl⟩
    | some wk => exact ⟨rfl, ApiError.internal, rfl⟩

/-- Witness for C2's amended theorem on concrete stores. -/
theorem C2_amended_witness :
    assignProgram 7 1 true dbC2 =
      (Except.error ApiError.internal,
       { dbC2 with user_programs := dbC2.user_programs ++
           [{ user_id := 7, program_id := 1, completed_at := none }] }) ∧
    ((markWorkoutDone 4 7 1 true dbC2m).2 = markProgressDone dbC2m 4 7 1 ∧
     ∃ e, (markWorkoutDone 4 7 1 true dbC2m).1 = Except.error e) :=
  ⟨C2_amended_no_rollback.1 7 1 dbC2 (by decide) (by decide) (by decide),
   C2_amended_no_rollback.2 4 7 1 dbC2m (by decide) (by decide) (by decide)⟩

/-- Claim C10: the completion re-evaluation of PATCH /api/mark-workout joins
`user_progress` with `workouts`, so it ranges only over workouts that have a
ProgressEntry for the user.  When every such entry is done after the status
UPDATE, the assignment is stamped — nothing requires the program's other
workouts (those without any entry for the user) to have been marked. -/
theorem C10_completion_counts_only_entried_workouts (now u w : Nat) (db : DB)
    (wk : Workout) (hu : u ≠ 0) (hw : w ≠ 0)
    (hrows : (progressRows db u w).length ≠ 0)
    (hwk : db.workouts.find? (fun k => k.id == w) = some wk)
    (hnopending :
      hasPendingFor (markProgressDone db now u w) u wk.program_id = false) :
    markWorkoutDone now u w false db =
      (Except.ok (),
       stampCompletion (markProgressDone db now u w) now u wk.program_id) ∧
    ∀ a ∈ (markWorkoutDone now u w false db).2.user_programs,
      a.user_id = u → a.program_id = wk.program_id →
        a.completed_at = some now := by
  have h1 := markWorkoutDone_stamps now u w db wk hu hw hrows hwk hnopending
  rw [h1]
  exact ⟨rfl, stampCompletion_all now u wk.program_id (markProgressDone db now u w)⟩

/-- Witness for C10: program 1 has workouts 1 and 2, but user 7 has an entry
only for workout 1; marking workout 1 stamps the assignment even though
workout 2 was never marked. -/
theorem C10_witness :
    ((progressRows dbC10 7 1).length ≠ 0 ∧
     dbC10.workouts.filter (fun wk => wk.program_id == 1) =
       [sampleWorkout, sampleWorkout2] ∧
     (dbC10.user_progress.filter (fun e => e.workout_id == 2)) = []) ∧
    markWorkoutDone 5 7 1 false dbC10 =
      (Except.ok (),
       stampCompletion (markProgressDone dbC10 5 7 1) 5 7
         sampleWorkout.program_id) :=
  ⟨⟨by decide, rfl, rfl⟩,
   (C10_completion_counts_only_entried_workouts 5 7 1 dbC10 sampleWorkout
     (by decide) (by decide) (by decide) (by decide) (by decide)).1⟩

/-- `submitFeedback` unfolded to its decision tree. -/
theorem submitFeedback_eq (u p : Nat) (m : String) (db : DB) :
    submitFeedback u p m db =
      if u = 0 ∨ p = 0 ∨ m = "" then
        (Except.error (ApiError.validation "Missing required fields"), db)
      else
        match assignmentFor db u p with
        | none =>
          (Except.error (ApiError.validation "Program not assigned to this user"), db)
        | some a =>
          if a.completed_at = none then
            (Except.error (ApiError.validation "Program not completed yet"), db)
          else if (feedbackRows db u p).length > 0 then
            (Except.error (ApiError.validation "Feedback already submitted"), db)
          else
            (Except.ok { user_id := u, program_id := p, message := m },
             { db with comments := db.comments ++
                [{ user_id := u, program_id := p, message := m }] }) := rfl

/-- Claim C7: the Feedback Gate checks its preconditions in order — missing
assignment, then NULL completion stamp, then existing feedback — each with
its own failure and no store change; when all pass, exactly one Feedback row
is appended and an immediate re-submission fails as a duplicate. -/
theorem C7_feedback_gate (u p : Nat) (m : String) (db : DB)
    (hu : u ≠ 0) (hp : p ≠ 0) (hm : m ≠ "") :
    (assignmentFor db u p = none →
      submitFeedback u p m db =
        (Except.error (ApiError.validation "Program not assigned to this user"),
         db)) ∧
    (∀ a, assignmentFor db u p = some a → a.completed_at = none →
      submitFeedback u p m db =
        (Except.error (ApiError.validation "Program not completed yet"), db)) ∧
    (∀ a, assignmentFor db u p = some a → a.completed_at ≠ none →
      feedbackRows db u p ≠ [] →
      submitFeedback u p m db =
        (Except.error (ApiError.validation "Feedback already submitted"), db)) ∧
    (∀ a, assignmentFor db u p = some a → a.completed_at ≠ none →
      feedbackRows db u p = [] →
      submitFeedback u p m db =
        (Except.ok { user_id := u, program_id := p, message := m },
         { db with comments := db.comments ++
            [{ user_id := u, program_id := p, message := m }] }) ∧
      submitFeedback u p m
          { db with comments := db.comments ++
            [{ user_id := u, program_id := p, message := m }] } =
        (Except.error (ApiError.validation "Feedback already submitted"),
         { db with comments := db.comments ++
            [{ user_id := u, program_id := p, message := m }] })) := by
  have hids : ¬ (u = 0 ∨ p = 0 ∨ m = "") := by tauto
  refine ⟨?_, ?_, ?_, ?_⟩
  · intro hnone
    rw [submitFeedback_eq, if_neg hids, hnone]
  · intro a hfind hnull
    rw [submitFeedback_eq, if_neg hids, hfind]
    simp only [if_pos hnull]
  · intro a hfind hstamp hdup
    have hlen : (feedbackRows db u p).length > 0 := List.length_pos.mpr hdup
    rw [submitFeedback_eq, if_neg hids, hfind]
    simp [hstamp, hlen]
  · intro a hfind hstamp hnodup
    constructor
    · rw [submitFeedback_eq, if_neg hids, hfind]
      simp [hstamp, hnodup]
    · have hfind2 : assignmentFor
          { db with comments := db.comments ++
            [{ user_id := u, program_id := p, message := m }] } u p = some a :=
        hfind
      have hpos : (feedbackRows
          { db with comments := db.comments ++
            [{ user_id := u, program_id := p, message := m }] } u p).length > 0 := by
        simp [feedbackRows, List.filter_append]
      rw [submitFeedback_eq, if_neg hids, hfind2]
      simp [hstamp, hpos]

/-- Witness for C7: on the completed assignment of `dbC7`, the first
submission succeeds and appends one Feedback row. -/
theorem C7_witness :
    (assignmentFor dbC7 7 1 =
      some { user_id := 7, program_id := 1, completed_at := some 3 } ∧
     feedbackRows dbC7 7 1 = []) ∧
    (submitFeedback 7 1 "great" dbC7 =
      (Except.ok { user_id := 7, program_id := 1, message := "great" },
       { dbC7 with comments := dbC7.comments ++
          [{ user_id := 7, program_id := 1, message := "great" }] }) ∧
     submitFeedback 7 1 "great"
        { dbC7 with comments := dbC7.comments ++
          [{ user_id := 7, program_id := 1, message := "great" }] } =
      (Except.error (ApiError.validation "Feedback already submitted"),
       { dbC7 with comments := dbC7.comments ++
          [{ user_id := 7, program_id := 1, message := "great" }] })) :=
  ⟨⟨rfl, rfl⟩,
   (C7_feedback_gate 7 1 "great" dbC7 (by decide) (by decide) (by decide)).2.2.2
     { user_id := 7, program_id := 1, completed_at := some 3 }
     rfl (by simp) rfl⟩

/-- Claim C8: a caller whose role is not `super_admin` is rejected by the
`authAdmin` middleware of all three admin mutations with Forbidden (a
distinct error from NotFound) before any handler runs: the store — User
rows and audit log included — is returned unchanged. -/
theorem C8_non_admin_forbidden (caller : Caller)
    (hr : caller.role ≠ "super_admin") (hash : String → String)
    (uid : Nat) (role : Option String) (pw : String)
    (tid : Nat) (act : Option Bool) (db : DB) :
    updateRole caller uid role db = (Except.error ApiError.forbidden, db) ∧
    resetPassword hash caller uid pw db = (Except.error ApiError.forbidden, db) ∧
    toggleUser caller tid act db = (Except.error ApiError.forbidden, db) ∧
    ∀ msg, (ApiError.forbidden : ApiError) ≠ ApiError.notFound msg := by
  have hb : authAdmin caller = false := by
    simp only [authAdmin, beq_eq_false_iff_ne, ne_eq]
    exact hr
  refine ⟨?_, ?_, ?_, fun msg => by simp⟩
  · unfold updateRole
    rw [if_pos (by simp [hb])]
  · unfold resetPassword
    rw [if_pos (by simp [hb])]
  · unfold toggleUser
    rw [if_pos (by simp [hb])]

/-- Witness for C8 with a coach caller. -/
theorem C8_witness :
    updateRole callerC8 2 (some "coach") dbC3 =
      (Except.error ApiError.forbidden, dbC3) ∧
    resetPassword (fun s => s) callerC8 2 "secret12" dbC3 =
      (Except.error ApiError.forbidden, dbC3) ∧
    toggleUser callerC8 2 (some false) dbC3 =
      (Except.error ApiError.forbidden, dbC3) ∧
    ∀ msg, (ApiError.forbidden : ApiError) ≠ ApiError.notFound msg :=
  C8_non_admin_forbidden callerC8 (by decide) (fun s => s)
    2 (some "coach") "secret12" 2 (some false) dbC3

/-- Claim C9: `logAudit` wraps its insert in `try`/`catch`, so it returns
normally for every input and every insert outcome; when the insert fails the
error is swallowed and the store is returned untouched. -/
theorem C9_logAudit_swallows_failures (actorId : Nat) (action : String)
    (targetId : Option Nat) (details : Option String) (fails : Bool)
    (db : DB) :
    (logAudit actorId action targetId details fails db).isOk = true ∧
    logAudit actorId action targetId details true db = Except.ok db := by
  constructor
  · cases fails <;> rfl
  · rfl

/-- Claim C3 (code bug): no admin mutation handler ever writes an
AuditRecord — `logAudit` is never invoked — so the audit log is unchanged by
every role change, password reset, and activation toggle; in particular the
concrete successful role change leaves `audit_logs` empty. -/
theorem C3_admin_mutations_write_no_audit :
    (∀ caller uid role db,
      (updateRole caller uid role db).2.audit_logs = db.audit_logs) ∧
    (∀ hash caller uid pw db,
      (resetPassword hash caller uid pw db).2.audit_logs = db.audit_logs) ∧
    (∀ caller uid act db,
      (toggleUser caller uid act db).2.audit_logs = db.audit_logs) ∧
    (updateRole callerC3 2 (some "coach") dbC3).1 = Except.ok () ∧
    (updateRole callerC3 2 (some "coach") dbC3).2.users =
      [{ id := 2, name := "Bob", email := "b@x", role := "coach",
         active := true, password := "pw" }] ∧
    (updateRole callerC3 2 (some "coach") dbC3).2.audit_logs = [] := by
  refine ⟨?_, ?_, ?_, rfl, rfl, rfl⟩
  · intro caller uid role db
    unfold updateRole
    repeat' split
    all_goals rfl
  · intro hash caller uid pw db
    unfold resetPassword
    repeat' split
    all_goals rfl
  · intro caller uid act db
    unfold toggleUser
    repeat' split
    all_goals rfl

end GymTracker
